import Mathlib

/-!
Shallow embedding of the litter-tracker event pipeline (src/app.py) and
verification of the frozen claims about it.

Modelling conventions:
* Python floats (weights, time differences) are modelled as exact rationals
  (`ℚ`); timestamps (`dt`) are modelled as seconds on a rational time line,
  so `(a - b).total_seconds() / 60` becomes `(a - b) / 60`.
* `pandas.isna` can never hold for a rational weight, so the `pd.isna(weight)`
  disjunct of `classify_row` is dropped; the `weight < 0.5` disjunct is kept.
* Python format specifiers are modelled by executable helpers: `fmt1` models
  `format(x, ".1f")` and `round1`/`round2` model `round(x, 1)`/`round(x, 2)`
  (ties rounded up rather than to even — no claim evaluates at a tie), and
  `decRepr` models `str(x)` for floats that carry short decimal fractions.
* SQLite tables are modelled as Lean lists; the `usage_logs` PRIMARY KEY on
  `timestamp` together with the `except sqlite3.IntegrityError: pass` handler
  becomes `insertRow`, a guarded append keyed on the timestamp.
-/

set_option maxRecDepth 8000

/-- Check that the character list `hay` begins with the character list `pat`. -/
def startsWithCL : List Char → List Char → Bool
  | _, [] => true
  | [], _ :: _ => false
  | a :: as, b :: bs => a == b && startsWithCL as bs

/-- Check that `pat` occurs as a contiguous sublist of `hay`. -/
def containsCL : List Char → List Char → Bool
  | [], pat => pat.isEmpty
  | a :: as, pat => startsWithCL (a :: as) pat || containsCL as pat

/-- The Python substring test `pat in s` on strings. -/
def strContains (s pat : String) : Bool := containsCL s.data pat.data

/-- Python `str.lower()` (structural model of `String.toLower`, so that the
kernel can evaluate it). -/
def lowerStr (s : String) : String := String.mk (s.data.map Char.toLower)

/-- One-decimal fixed formatting, modelling the Python f-string piece
`{x:.1f}` for the non-negative differences it is applied to. -/
def fmt1 (q : ℚ) : String :=
  let n : ℤ := Rat.floor (q * 10 + 1 / 2)
  toString (n / 10) ++ "." ++ toString (n % 10)

/-- Decimal digits of a rational in `[0, 1)`, up to 17 places, stopping at 0:
the fractional part of the Python float repr used inside f-strings. -/
def fracDigits : Nat → ℚ → String
  | 0, _ => ""
  | k + 1, q =>
    if q = 0 then ""
    else
      let d : ℤ := Rat.floor (q * 10)
      toString d ++ fracDigits k (q * 10 - (d : ℚ))

/-- Python `str(x)` for a float with a short decimal expansion, as produced by
f-strings such as `f"Matched w/ {weight}lbs"`. -/
def decRepr (q : ℚ) : String :=
  let s := if q < 0 then "-" else ""
  let a := |q|
  let ip : ℤ := Rat.floor a
  let fp := a - (ip : ℚ)
  if fp = 0 then s ++ toString ip ++ ".0"
  else s ++ toString ip ++ "." ++ fracDigits 17 fp

/-- Python `int(x)`: truncation toward zero. -/
def truncQ (q : ℚ) : ℤ := if 0 ≤ q then Rat.floor q else -Rat.floor (-q)

/-- Python `round(x, 1)` (ties-up model; no claim evaluates at a tie). -/
def round1 (q : ℚ) : ℚ := ((Rat.floor (q * 10 + 1 / 2) : ℚ)) / 10

/-- Python `round(x, 2)` (ties-up model; no claim evaluates at a tie). -/
def round2 (q : ℚ) : ℚ := ((Rat.floor (q * 100 + 1 / 2) : ℚ)) / 100

/-- A row of the `cat_profiles` table, as consumed by `classify_row`. -/
structure Profile where
  name : String
  target_weight : ℚ
deriving DecidableEq, Repr

/-- The system/maintenance keywords of `classify_row` (src/app.py line 74). -/
def sys_keywords : List String :=
  ["clean", "cycle", "reset", "power", "bonnet", "ready", "full"]

/-- The nearest-neighbour accumulator loop of `classify_row`
(src/app.py lines 88-92), started at `("Unknown", 99.9)`. -/
def bestLoop (weight : ℚ) : List Profile → String × ℚ → String × ℚ
  | [], acc => acc
  | c :: rest, acc =>
    let diff := |weight - c.target_weight|
    if diff < acc.2 then bestLoop weight rest (c.name, diff)
    else bestLoop weight rest acc

/-- `classify_row(row, profiles)` from src/app.py lines 65-98, on the
`activity` and `weight` fields of the row. -/
def classify_row (activity : String) (weight : ℚ) (profiles : List Profile) :
    String × String :=
  let act := lowerStr activity
  if sys_keywords.any (fun k => strContains act k) then
    ("System", "Machine Operation")
  else if strContains act "cat detected" && decide (weight < (1 / 2 : ℚ)) then
    ("Unknown", "Motion detected (No weight)")
  else if weight < (1 / 2 : ℚ) then
    ("Error", "Weight too low (" ++ decRepr weight ++ " lbs)")
  else
    let bc := bestLoop weight profiles ("Unknown", 999 / 10)
    if bc.2 ≤ 2 then (bc.1, "")
    else ("Unknown",
      "No match within 2.0lbs (Closest: " ++ bc.1 ++ " @ " ++ fmt1 bc.2 ++ " diff)")

/-- A parsed upload row, as built at src/app.py line 466: normalized time
`dt` (seconds), raw `activity` text, and parsed `weight`. -/
structure PRow where
  dt : ℚ
  activity : String
  weight : ℚ
deriving DecidableEq, Repr

/-- The look-ahead inner loop of `upload_file` (src/app.py lines 476-483):
walk the rows after the motion row with fuel `min(i + 20, len) - (i + 1) ≤ 19`,
break once elapsed minutes exceed 7, and adopt the first weight-recorded row
with weight above 0.5, recording its classification and the borrow reason. -/
def scanWeight (profiles : List Profile) (baseDt : ℚ) :
    Nat → List PRow → Option (String × String)
  | 0, _ => none
  | _ + 1, [] => none
  | fuel + 1, r :: rest =>
    let td := (r.dt - baseDt) / 60
    if 7 < td then none
    else if strContains (lowerStr r.activity) "weight recorded" &&
        decide ((1 / 2 : ℚ) < r.weight) then
      some ((classify_row r.activity r.weight profiles).1,
        "Matched w/ " ++ decRepr r.weight ++ "lbs (+" ++ toString (truncQ td) ++ "m)")
    else scanWeight profiles baseDt fuel rest

/-- The per-row classification step of `upload_file` (src/app.py lines
471-484): classifier output, then look-ahead correlation for motion rows
over the subsequent rows `tail`, then the Unknown-reason overwrite. -/
def correlate (profiles : List Profile) (row : PRow) (tail : List PRow) :
    String × String :=
  let cr := classify_row row.activity row.weight profiles
  if strContains (lowerStr row.activity) "cat detected" then
    let cr2 :=
      match scanWeight profiles row.dt 19 tail with
      | some res => res
      | none => cr
    if cr2.1 == "Unknown" then ("Unknown", "No weight found in 7m") else cr2
  else cr

/-- Declarative donor search, written from the amended claim: among the at
most 19 subsequent rows, truncated at the first row more than 7 elapsed
minutes away, the first row whose activity contains "weight recorded" and
whose weight is strictly above 0.5. -/
def donorSearch (baseDt : ℚ) (tail : List PRow) : Option PRow :=
  ((tail.take 19).takeWhile (fun r => decide ((r.dt - baseDt) / 60 ≤ 7))).find?
    (fun r => strContains (lowerStr r.activity) "weight recorded" &&
      decide ((1 / 2 : ℚ) < r.weight))

/-- A stored `usage_logs` row (src/app.py line 43); `date`/`time` are derived
from `timestamp` and `metadata` is an opaque payload, so both are omitted. -/
structure StoredEv where
  timestamp : ℚ
  weight : ℚ
  activity : String
  cat_identity : String
  flag_reason : String
deriving DecidableEq, Repr

/-- The guarded insert of `upload_file` (src/app.py lines 486-490): the
`timestamp` PRIMARY KEY plus `except sqlite3.IntegrityError: pass` make a
duplicate-key insert a silent no-op that does not bump `added`. -/
def insertRow (db : List StoredEv) (e : StoredEv) : List StoredEv × Bool :=
  if db.any (fun r => decide (r.timestamp = e.timestamp)) then (db, false)
  else (db ++ [e], true)

/-- The insert loop of `upload_file` (src/app.py lines 471-490) over the
sorted parsed rows: classify/correlate each row against the rows after it,
insert, and count the rows actually added. -/
def ingestLoop (profiles : List Profile) :
    List StoredEv → Nat → List PRow → List StoredEv × Nat
  | db, added, [] => (db, added)
  | db, added, r :: rest =>
    let cr := correlate profiles r rest
    let ins := insertRow db ⟨r.dt, r.weight, r.activity, cr.1, cr.2⟩
    ingestLoop profiles ins.1 (if ins.2 then added + 1 else added) rest

/-- One ingestion pass of a parsed batch into the events table. -/
def ingest (profiles : List Profile) (db : List StoredEv) (rows : List PRow) :
    List StoredEv × Nat :=
  ingestLoop profiles db 0 rows

/-- A `data_blacklist` row (src/app.py line 45); `reason` stores the
original activity text, per the blacklist action at lines 250-251. -/
structure BLEntry where
  timestamp : ℚ
  weight : ℚ
  reason : String
deriving DecidableEq, Repr

/-- The blacklist membership probe of `upload_file` (src/app.py lines
433-434, 464): a parsed row is suppressed when some blacklist entry has the
same `(timestamp, weight)` pair. -/
def blKey (bl : List BLEntry) (ts w : ℚ) : Bool :=
  bl.any (fun b => decide (b.timestamp = ts) && decide (b.weight = w))

/-- The `continue` at src/app.py line 464: parsed rows whose
`(timestamp, weight)` pair is blacklisted never reach `parsed_rows`. -/
def filterBlacklist (bl : List BLEntry) (rows : List PRow) : List PRow :=
  rows.filter (fun r => !(blKey bl r.dt r.weight))

/-- The `restore` branch of `fix_entry` (src/app.py lines 257-279): look the
timestamp up in the blacklist, reinsert the event with identity `Unknown`
and reason `Restored from Blacklist` (failing without changes when the
timestamp is still active, as the raising INSERT is caught), then delete the
blacklist rows with that timestamp. Returns the new blacklist, the new
events table, and a success flag. -/
def restore_from_blacklist (bl : List BLEntry) (db : List StoredEv) (ts : ℚ) :
    (List BLEntry × List StoredEv) × Bool :=
  match bl.find? (fun b => decide (b.timestamp = ts)) with
  | none => ((bl, db), false)
  | some b =>
    if db.any (fun e => decide (e.timestamp = ts)) then ((bl, db), false)
    else ((bl.filter (fun x => !(decide (x.timestamp = ts))),
      db ++ [⟨ts, b.weight, b.reason, "Unknown", "Restored from Blacklist"⟩]), true)

/-- The visit-counting loop of `dashboard` (src/app.py lines 166-171) on the
`dt` column (seconds) of a per-identity, time-sorted frame: `last_time` only
advances when a new visit starts. -/
def visitGo : List ℚ → Option ℚ → Nat → Nat
  | [], _, n => n
  | t :: rest, none, n => visitGo rest (some t) (n + 1)
  | t :: rest, some l, n =>
    if 10 < (t - l) / 60 then visitGo rest (some t) (n + 1)
    else visitGo rest (some l) n

/-- `true_visits` as computed by `dashboard` (src/app.py lines 164-171). -/
def trueVisits (ts : List ℚ) : Nat := visitGo ts none 0

/-- The per-day visit loop of `analysis` (src/app.py lines 392-395), written
out separately because the source repeats the loop verbatim there. -/
def dayVisitGo : List ℚ → Option ℚ → Nat → Nat
  | [], _, n => n
  | t :: rest, none, n => dayVisitGo rest (some t) (n + 1)
  | t :: rest, some l, n =>
    if 10 < (t - l) / 60 then dayVisitGo rest (some t) (n + 1)
    else dayVisitGo rest (some l) n

/-- `visits` for one day of the frequency series in `analysis`
(src/app.py lines 391-396). -/
def dailyVisits (ts : List ℚ) : Nat := dayVisitGo ts none 0

/-- A row of the dataframe `analysis` works on (src/app.py line 303):
normalized time `dt` (seconds), activity text and assigned identity. -/
structure LogRow where
  dt : ℚ
  activity : String
  cat_identity : String
deriving DecidableEq, Repr

/-- `cycle_start` (src/app.py line 345): rows whose activity is exactly
`Clean Cycle In Progress`, in frame order. -/
def cycleStarts (df : List LogRow) : List LogRow :=
  df.filter (fun r => decide (r.activity = "Clean Cycle In Progress"))

/-- `cycle_end` (src/app.py line 346): rows whose activity is exactly
`Clean Cycle Complete`, in frame order. -/
def cycleEnds (df : List LogRow) : List LogRow :=
  df.filter (fun r => decide (r.activity = "Clean Cycle Complete"))

/-- The interruption mask of `analysis` (src/app.py line 352): some row of
the frame strictly between the paired start and end has activity exactly
`Cycle interrupted`. -/
def interruptedBetween (df : List LogRow) (s e : ℚ) : Bool :=
  df.any (fun r => decide (s < r.dt) && decide (r.dt < e) &&
    decide (r.activity = "Cycle interrupted"))

/-- The pairing rule of `analysis` (src/app.py lines 348-350): the last
start row strictly before the end row, whether or not an earlier end row
already used it. -/
def pairedStart (df : List LogRow) (er : LogRow) : Option LogRow :=
  ((cycleStarts df).filter (fun s => decide (s.dt < er.dt))).getLast?

/-- `machine_health` (src/app.py lines 344-355): for each end marker, pair
it with `pairedStart`, and emit `(start time, duration in minutes)` when no
interruption lies strictly between and the duration is strictly between 60
and 300 seconds. -/
def machineHealth (df : List LogRow) : List (ℚ × ℚ) :=
  (cycleEnds df).filterMap (fun er =>
    match pairedStart df er with
    | none => none
    | some sr =>
      let dur := er.dt - sr.dt
      if !interruptedBetween df sr.dt er.dt && decide (60 < dur) &&
          decide (dur < 300) then
        some (sr.dt, round2 (dur / 60))
      else none)

/-- The dwell candidate frame of `analysis` (src/app.py line 368): rows of
the whole frame, of any identity, inside the 30-minute lookback window
ending at the virtual exit (15 minutes before the cycle start `sdt`), whose
activity contains `Cat detected` case-insensitively. -/
def dwellCandidates (df : List LogRow) (sdt : ℚ) : List LogRow :=
  df.filter (fun r => decide (sdt - 900 - 1800 ≤ r.dt) &&
    decide (r.dt ≤ sdt - 900) &&
    strContains (lowerStr r.activity) "cat detected")

/-- `cat_points` for one identity in the dwell-time section of `analysis`
(src/app.py lines 364-376): for each cycle start take the positionally last
dwell candidate; emit a point only when that row's identity is the one under
evaluation and the dwell minutes are strictly between 0 and 30. -/
def dwellPoints (df : List LogRow) (cat : String) : List (ℚ × ℚ) :=
  (cycleStarts df).filterMap (fun sr =>
    let ve := sr.dt - 900
    match (dwellCandidates df sr.dt).getLast? with
    | none => none
    | some lastCat =>
      if lastCat.cat_identity == cat then
        let dwell := (ve - lastCat.dt) / 60
        if decide (0 < dwell) && decide (dwell < 30) then
          some (sr.dt, round1 dwell)
        else none
      else none)

example : correlate [⟨"Luna", 10⟩] ⟨0, "Cat Detected", 0⟩
    [⟨360, "Weight Recorded", 10⟩] = ("Luna", "Matched w/ 10.0lbs (+6m)") := by
  with_unfolding_all decide
example : correlate [⟨"Luna", 10⟩] ⟨0, "Cat Detected", 0⟩
    [⟨480, "Weight Recorded", 10⟩] = ("Unknown", "No weight found in 7m") := by
  with_unfolding_all decide
example : trueVisits [0, 480, 960] = 2 := by with_unfolding_all decide
example : trueVisits [0, 300, 720] = 2 := by with_unfolding_all decide
example : machineHealth [⟨0, "Clean Cycle In Progress", "System"⟩,
    ⟨90, "Clean Cycle Complete", "System"⟩,
    ⟨150, "Clean Cycle Complete", "System"⟩] = [(0, 3/2), (0, 5/2)] := by
  with_unfolding_all decide
example : dwellPoints [⟨-600, "Cat Detected", "Ami"⟩, ⟨-300, "Cat Detected", "Bea"⟩,
    ⟨900, "Clean Cycle In Progress", "System"⟩] "Ami" = [] := by
  with_unfolding_all decide
example : dwellPoints [⟨-600, "Cat Detected", "Ami"⟩, ⟨-300, "Cat Detected", "Bea"⟩,
    ⟨900, "Clean Cycle In Progress", "System"⟩] "Bea" = [(900, 5)] := by
  with_unfolding_all decide

/-- Spec-side description of the nearest-neighbour loop: the first profile
of the list attaining the minimal weight difference, with that difference. -/
def argminFirst (w : ℚ) : List Profile → Option (String × ℚ)
  | [] => none
  | p :: rest =>
    match argminFirst w rest with
    | none => some (p.name, |w - p.target_weight|)
    | some (n, d) =>
      if |w - p.target_weight| ≤ d then some (p.name, |w - p.target_weight|)
      else some (n, d)

theorem argminFirst_eq_none (w : ℚ) (ps : List Profile) :
    argminFirst w ps = none ↔ ps = [] := by
  cases ps with
  | nil => simp [argminFirst]
  | cons p rest =>
    simp only [argminFirst]
    cases argminFirst w rest with
    | none => simp
    | some nd => cases nd with | mk n d => by_cases h : |w - p.target_weight| ≤ d <;> simp [h]

theorem argminFirst_mem (w : ℚ) (ps : List Profile) :
    ∀ n d, argminFirst w ps = some (n, d) →
      ∃ p, p ∈ ps ∧ p.name = n ∧ |w - p.target_weight| = d := by
  induction ps with
  | nil => intro n d h; simp [argminFirst] at h
  | cons p rest ih =>
    intro n d h
    cases hrest : argminFirst w rest with
    | none =>
      simp only [argminFirst, hrest, Option.some.injEq, Prod.mk.injEq] at h
      exact ⟨p, by simp, h.1, h.2⟩
    | some nd =>
      cases nd with | mk m e =>
      simp only [argminFirst, hrest] at h
      by_cases hle : |w - p.target_weight| ≤ e
      · rw [if_pos hle] at h
        simp only [Option.some.injEq, Prod.mk.injEq] at h
        exact ⟨p, by simp, h.1, h.2⟩
      · rw [if_neg hle] at h
        simp only [Option.some.injEq, Prod.mk.injEq] at h
        obtain ⟨q, hq, hqn, hqd⟩ := ih m e hrest
        exact ⟨q, by simp [hq], hqn.trans h.1, hqd.trans h.2⟩

theorem argminFirst_min (w : ℚ) (ps : List Profile) :
    ∀ n d, argminFirst w ps = some (n, d) →
      ∀ p ∈ ps, d ≤ |w - p.target_weight| := by
  induction ps with
  | nil => intro n d h; simp [argminFirst] at h
  | cons p rest ih =>
    intro n d h q hq
    cases hrest : argminFirst w rest with
    | none =>
      have hrn : rest = [] := (argminFirst_eq_none w rest).mp hrest
      simp only [argminFirst, hrest, Option.some.injEq, Prod.mk.injEq] at h
      rcases List.mem_cons.mp hq with rfl | hmem
      · exact le_of_eq h.2.symm
      · simp [hrn] at hmem
    | some nd =>
      cases nd with | mk m e =>
      simp only [argminFirst, hrest] at h
      by_cases hle : |w - p.target_weight| ≤ e
      · rw [if_pos hle] at h
        simp only [Option.some.injEq, Prod.mk.injEq] at h
        rcases List.mem_cons.mp hq with rfl | hmem
        · exact le_of_eq h.2.symm
        · calc d = |w - p.target_weight| := h.2.symm
            _ ≤ e := hle
            _ ≤ |w - q.target_weight| := ih m e hrest q hmem
      · rw [if_neg hle] at h
        simp only [Option.some.injEq, Prod.mk.injEq] at h
        rcases List.mem_cons.mp hq with rfl | hmem
        · calc d = e := h.2.symm
            _ ≤ |w - q.target_weight| := le_of_not_le hle
        · exact h.2 ▸ ih m e hrest q hmem

theorem bestLoop_argmin (w : ℚ) (ps : List Profile) (acc : String × ℚ) :
    bestLoop w ps acc =
      match argminFirst w ps with
      | none => acc
      | some (n, d) => if d < acc.2 then (n, d) else acc := by
  induction ps generalizing acc with
  | nil => simp [bestLoop, argminFirst]
  | cons p rest ih =>
    cases acc with | mk b c =>
    cases hrest : argminFirst w rest with
    | none =>
      have hrn : rest = [] := (argminFirst_eq_none w rest).mp hrest
      subst hrn
      by_cases hp : |w - p.target_weight| < c <;>
        simp [bestLoop, argminFirst, hp]
    | some nd =>
      cases nd with | mk n d =>
      simp only [bestLoop, argminFirst, hrest, ih]
      by_cases hle : |w - p.target_weight| ≤ d
      · have hnd : ¬ d < |w - p.target_weight| := not_lt.mpr hle
        by_cases hp : |w - p.target_weight| < c
        · simp [hp, hle, hnd]
        · have hdc : ¬ d < c := fun hdc => hp (lt_of_le_of_lt hle hdc)
          simp [hp, hle, hnd, hdc]
      · have hdlt : d < |w - p.target_weight| := lt_of_not_le hle
        by_cases hp : |w - p.target_weight| < c
        · have hdc : d < c := lt_trans hdlt hp
          simp [hp, hle, hdlt, hdc]
        · simp [hp, hle, hdlt]

theorem bestLoop_first_min (w : ℚ) (ps : List Profile) (n : String) (d : ℚ)
    (hmin : argminFirst w ps = some (n, d)) (hd : d < 999 / 10) :
    bestLoop w ps ("Unknown", 999 / 10) = (n, d) := by
  rw [bestLoop_argmin, hmin]
  simp [hd]

theorem bestLoop_keep (w : ℚ) (ps : List Profile) (b : String) (d : ℚ)
    (h : ∀ p ∈ ps, ¬ |w - p.target_weight| < d) :
    bestLoop w ps (b, d) = (b, d) := by
  induction ps with
  | nil => rfl
  | cons p rest ih =>
    simp only [bestLoop]
    rw [if_neg (h p (by simp))]
    exact ih (fun q hq => h q (by simp [hq]))

theorem classify_row_match (activity : String) (w : ℚ) (ps : List Profile)
    (n : String) (d : ℚ)
    (hsys : (sys_keywords.any fun k => strContains (lowerStr activity) k) = false)
    (hw : (1 / 2 : ℚ) ≤ w)
    (hb : bestLoop w ps ("Unknown", 999 / 10) = (n, d)) (hd : d ≤ 2) :
    classify_row activity w ps = (n, "") := by
  have hlt : ¬ w < (1 / 2 : ℚ) := not_lt.mpr hw
  simp only [classify_row, hsys, Bool.false_eq_true, if_false,
    decide_eq_false hlt, hlt, decide_False, Bool.and_false, hb, if_pos hd]

theorem classify_row_nomatch (activity : String) (w : ℚ) (ps : List Profile)
    (n : String) (d : ℚ)
    (hsys : (sys_keywords.any fun k => strContains (lowerStr activity) k) = false)
    (hw : (1 / 2 : ℚ) ≤ w)
    (hb : bestLoop w ps ("Unknown", 999 / 10) = (n, d)) (hd : ¬ d ≤ 2) :
    classify_row activity w ps =
      ("Unknown", "No match within 2.0lbs (Closest: " ++ n ++ " @ " ++
        fmt1 d ++ " diff)") := by
  have hlt : ¬ w < (1 / 2 : ℚ) := not_lt.mpr hw
  simp only [classify_row, hsys, Bool.false_eq_true, if_false,
    decide_eq_false hlt, hlt, decide_False, Bool.and_false, hb, if_neg hd]

/-- Claim C10: with every profile at least 99.9 away from the weight
(including an empty profile list), a non-system event with weight at least
0.5 is classified `Unknown` with the sentinel reason reporting the initial
candidate `Unknown` and the initial difference 99.9, because a profile is
recorded as closest only when its difference is strictly below the running
sentinel. -/
theorem c10_sentinel_reason (activity : String) (w : ℚ) (ps : List Profile)
    (hsys : (sys_keywords.any fun k => strContains (lowerStr activity) k) = false)
    (hw : (1 / 2 : ℚ) ≤ w)
    (hfar : ∀ p ∈ ps, 999 / 10 ≤ |w - p.target_weight|) :
    classify_row activity w ps =
      ("Unknown", "No match within 2.0lbs (Closest: Unknown @ 99.9 diff)") := by
  have hb : bestLoop w ps ("Unknown", 999 / 10) = ("Unknown", 999 / 10) :=
    bestLoop_keep w ps _ _ (fun p hp => not_lt.mpr (hfar p hp))
  have hd : ¬ (999 / 10 : ℚ) ≤ 2 := by norm_num
  have h := classify_row_nomatch activity w ps "Unknown" (999 / 10) hsys hw hb hd
  rw [h]
  have hf : fmt1 (999 / 10 : ℚ) = "99.9" := by with_unfolding_all decide
  rw [hf]
  with_unfolding_all decide

/-- Witness for C10 at a concrete input: the empty profile list. -/
theorem c10_sentinel_reason_witness :
    classify_row "weight recorded" 3 [] =
      ("Unknown", "No match within 2.0lbs (Closest: Unknown @ 99.9 diff)") :=
  c10_sentinel_reason "weight recorded" 3 []
    (by with_unfolding_all decide) (by norm_num) (by simp)

/-- Counterexample to claim C6 as stated: with the single profile `Max` at
target weight 200 and event weight 1, the smallest difference is 199 > 2,
but the reason reports the sentinel `Unknown @ 99.9`, not the closest
candidate `Max` and its difference `199.0` as the claim asserts. -/
theorem c6_counterexample :
    classify_row "Weight Recorded" 1 [⟨"Max", 200⟩] =
      ("Unknown", "No match within 2.0lbs (Closest: Unknown @ 99.9 diff)") ∧
    classify_row "Weight Recorded" 1 [⟨"Max", 200⟩] ≠
      ("Unknown", "No match within 2.0lbs (Closest: Max @ 199.0 diff)") := by
  with_unfolding_all decide

/-- Claim C6 (amended): for a non-system event with weight at least 0.5,
if some profile is within tolerance 2.0, the classifier returns a closest
profile's name with an empty reason; if no profile is within tolerance but
some profile is strictly closer than the 99.9 sentinel, it returns `Unknown`
with a reason naming a closest candidate and its formatted difference (when
every profile is at least 99.9 away the sentinel is reported instead, see
C10); and the boundary behaviour: weight exactly `target + 2.0` matches,
`target + 2.0001` falls to `Unknown`. -/
theorem c6_tolerance_amended :
    (∀ activity (w : ℚ) ps,
      (sys_keywords.any fun k => strContains (lowerStr activity) k) = false →
      (1 / 2 : ℚ) ≤ w →
      (∃ p, p ∈ ps ∧ |w - p.target_weight| ≤ 2) →
      ∃ p, p ∈ ps ∧ (∀ q ∈ ps, |w - p.target_weight| ≤ |w - q.target_weight|) ∧
        classify_row activity w ps = (p.name, "")) ∧
    (∀ activity (w : ℚ) ps,
      (sys_keywords.any fun k => strContains (lowerStr activity) k) = false →
      (1 / 2 : ℚ) ≤ w →
      (∀ p ∈ ps, ¬ |w - p.target_weight| ≤ 2) →
      (∃ p, p ∈ ps ∧ |w - p.target_weight| < 999 / 10) →
      ∃ p, p ∈ ps ∧ (∀ q ∈ ps, |w - p.target_weight| ≤ |w - q.target_weight|) ∧
        classify_row activity w ps =
          ("Unknown", "No match within 2.0lbs (Closest: " ++ p.name ++ " @ " ++
            fmt1 (|w - p.target_weight|) ++ " diff)")) ∧
    (∀ (t : ℚ) (n : String), (1 / 2 : ℚ) ≤ t + 2 →
      classify_row "weight recorded" (t + 2) [⟨n, t⟩] = (n, "") ∧
      classify_row "weight recorded" (t + 2 + 1 / 10000) [⟨n, t⟩] =
        ("Unknown", "No match within 2.0lbs (Closest: " ++ n ++ " @ " ++
          "2.0" ++ " diff)")) := by
  refine ⟨?_, ?_, ?_⟩
  · intro activity w ps hsys hw hex
    obtain ⟨p0, hp0, hp0d⟩ := hex
    cases hm : argminFirst w ps with
    | none =>
      rw [argminFirst_eq_none] at hm
      subst hm
      simp at hp0
    | some nd =>
      cases nd with | mk n d =>
      obtain ⟨p, hp, hpn, hpd⟩ := argminFirst_mem w ps n d hm
      have hmin := argminFirst_min w ps n d hm
      have hd2 : d ≤ 2 := le_trans (hmin p0 hp0) hp0d
      have hd99 : d < 999 / 10 := lt_of_le_of_lt hd2 (by norm_num)
      have hb := bestLoop_first_min w ps n d hm hd99
      refine ⟨p, hp, fun q hq => hpd ▸ hmin q hq, ?_⟩
      rw [classify_row_match activity w ps n d hsys hw hb hd2, hpn]
  · intro activity w ps hsys hw hno hex
    obtain ⟨p0, hp0, hp0d⟩ := hex
    cases hm : argminFirst w ps with
    | none =>
      rw [argminFirst_eq_none] at hm
      subst hm
      simp at hp0
    | some nd =>
      cases nd with | mk n d =>
      obtain ⟨p, hp, hpn, hpd⟩ := argminFirst_mem w ps n d hm
      have hmin := argminFirst_min w ps n d hm
      have hd99 : d < 999 / 10 := lt_of_le_of_lt (hmin p0 hp0) hp0d
      have hb := bestLoop_first_min w ps n d hm hd99
      have hd2 : ¬ d ≤ 2 := hpd ▸ hno p hp
      refine ⟨p, hp, fun q hq => hpd ▸ hmin q hq, ?_⟩
      rw [classify_row_nomatch activity w ps n d hsys hw hb hd2, hpn, hpd]
  · intro t n ht
    have hsys : (sys_keywords.any fun k =>
        strContains (lowerStr "weight recorded") k) = false := by
      with_unfolding_all decide
    constructor
    · have habs : |t + 2 - t| = (2 : ℚ) := by
        rw [show t + 2 - t = (2 : ℚ) from by ring]
        norm_num
      have hb : bestLoop (t + 2) [⟨n, t⟩] ("Unknown", 999 / 10) = (n, 2) := by
        simp only [bestLoop, habs]
        rw [if_pos (by norm_num : (2 : ℚ) < 999 / 10)]
      exact classify_row_match "weight recorded" (t + 2) [⟨n, t⟩] n 2 hsys ht hb
        (by norm_num)
    · have habs : |t + 2 + 1 / 10000 - t| = (2 + 1 / 10000 : ℚ) := by
        rw [show t + 2 + 1 / 10000 - t = (2 + 1 / 10000 : ℚ) from by ring]
        norm_num
      have hb : bestLoop (t + 2 + 1 / 10000) [⟨n, t⟩] ("Unknown", 999 / 10) =
          (n, 2 + 1 / 10000) := by
        simp only [bestLoop, habs]
        rw [if_pos (by norm_num : (2 + 1 / 10000 : ℚ) < 999 / 10)]
      have hw2 : (1 / 2 : ℚ) ≤ t + 2 + 1 / 10000 := by linarith
      rw [classify_row_nomatch "weight recorded" (t + 2 + 1 / 10000) [⟨n, t⟩] n
        (2 + 1 / 10000) hsys hw2 hb (by norm_num)]
      rw [show fmt1 (2 + 1 / 10000 : ℚ) = "2.0" from by with_unfolding_all decide]

/-- Witness for C6 (amended) at a concrete input: weight exactly
`target + 2.0` with target 10 matches profile `Luna`. -/
theorem c6_tolerance_amended_witness :
    classify_row "weight recorded" ((10 : ℚ) + 2) [⟨"Luna", 10⟩] = ("Luna", "") :=
  (c6_tolerance_amended.2.2 10 "Luna" (by norm_num)).1

/-- Counterexample to claim C7 as stated: profiles `Ash` (target 50) and
`Birch` (target 250) are equidistant (difference 100) from weight 150, but
the classifier does not select the earlier profile `Ash`: both differences
are at least the 99.9 sentinel, so the output names the sentinel candidate
`Unknown` and mentions `Ash` nowhere. -/
theorem c7_counterexample :
    classify_row "Weight Recorded" 150 [⟨"Ash", 50⟩, ⟨"Birch", 250⟩] =
      ("Unknown", "No match within 2.0lbs (Closest: Unknown @ 99.9 diff)") ∧
    strContains "No match within 2.0lbs (Closest: Unknown @ 99.9 diff)" "Ash"
      = false := by
  with_unfolding_all decide

/-- Claim C7 (amended): for two equidistant profiles heading the profile
list, with no later profile strictly closer, the classifier deterministically
selects the earlier profile — its name becomes the identity on a match
within tolerance and the named closest candidate otherwise — provided their
common difference is strictly below the 99.9 sentinel (otherwise neither is
selected and the sentinel is reported, see C10). -/
theorem c7_tiebreak_amended (activity : String) (w t1 t2 : ℚ)
    (n1 n2 : String) (rest : List Profile)
    (hsys : (sys_keywords.any fun k => strContains (lowerStr activity) k) = false)
    (hw : (1 / 2 : ℚ) ≤ w)
    (heq : |w - t1| = |w - t2|)
    (hlt : |w - t1| < 999 / 10)
    (hmin : ∀ p ∈ rest, |w - t1| ≤ |w - p.target_weight|) :
    classify_row activity w (⟨n1, t1⟩ :: ⟨n2, t2⟩ :: rest) =
      (if |w - t1| ≤ 2 then (n1, "")
       else ("Unknown", "No match within 2.0lbs (Closest: " ++ n1 ++ " @ " ++
         fmt1 (|w - t1|) ++ " diff)")) := by
  have hb : bestLoop w (⟨n1, t1⟩ :: ⟨n2, t2⟩ :: rest) ("Unknown", 999 / 10) =
      (n1, |w - t1|) := by
    simp only [bestLoop]
    rw [if_pos hlt, if_neg (by rw [← heq]; exact lt_irrefl _)]
    exact bestLoop_keep w rest n1 (|w - t1|)
      (fun p hp => not_lt.mpr (hmin p hp))
  by_cases hd : |w - t1| ≤ 2
  · rw [if_pos hd]
    exact classify_row_match activity w _ n1 (|w - t1|) hsys hw hb hd
  · rw [if_neg hd]
    exact classify_row_nomatch activity w _ n1 (|w - t1|) hsys hw hb hd

/-- Witness for C7 (amended) at a concrete input: profiles `A` (target 9)
and `B` (target 11) are equidistant from weight 10; `A` is selected. -/
theorem c7_tiebreak_amended_witness :
    classify_row "weight recorded" 10 [⟨"A", 9⟩, ⟨"B", 11⟩] = ("A", "") := by
  have h := c7_tiebreak_amended "weight recorded" 10 9 11 "A" "B" []
    (by with_unfolding_all decide) (by norm_num)
    (by norm_num) (by norm_num) (by simp)
  rw [h, if_pos (by norm_num : |(10 : ℚ) - 9| ≤ 2)]

theorem visitGo_eq_dayVisitGo (ts : List ℚ) :
    ∀ o n, visitGo ts o n = dayVisitGo ts o n := by
  induction ts with
  | nil => intro o n; cases o <;> rfl
  | cons t rest ih =>
    intro o n
    cases o with
    | none => simp only [visitGo, dayVisitGo]; exact ih _ _
    | some l =>
      simp only [visitGo, dayVisitGo]
      by_cases h : 10 < (t - l) / 60
      · rw [if_pos h, if_pos h]; exact ih _ _
      · rw [if_neg h, if_neg h]; exact ih _ _

/-- Counterexample to claim C2 as stated: the anchor does not advance on a
merge, so events at T, T+8min, T+16min form two visits, not the single visit
the claim predicts. -/
theorem c2_counterexample :
    trueVisits [0, 480, 960] = 2 ∧ trueVisits [0, 480, 960] ≠ 1 := by
  with_unfolding_all decide

/-- Claim C2 (amended): visit grouping walks the sequence once (the same
loop is run by the dashboard and by the analysis frequency series); a new
visit starts exactly when there is no prior visit or the gap between the
current event and the open visit's anchor exceeds 10 minutes; on a merge the
anchor stays at the event that started the open visit (it does not advance),
so events at T, T+8min, T+16min form two visits. -/
theorem c2_visit_grouping_amended :
    (∀ ts, trueVisits ts = dailyVisits ts) ∧
    (∀ (rest : List ℚ) (t : ℚ) (n : Nat),
      visitGo (t :: rest) none n = visitGo rest (some t) (n + 1)) ∧
    (∀ (rest : List ℚ) (t l : ℚ) (n : Nat),
      visitGo (t :: rest) (some l) n =
        if 10 < (t - l) / 60 then visitGo rest (some t) (n + 1)
        else visitGo rest (some l) n) ∧
    (∀ t : ℚ, trueVisits [t, t + 480, t + 960] = 2) := by
  refine ⟨fun ts => visitGo_eq_dayVisitGo ts none 0, fun _ _ _ => rfl,
    fun _ _ _ _ => rfl, ?_⟩
  intro t
  have h1 : ¬ 10 < (t + 480 - t) / 60 := by
    rw [show t + 480 - t = (480 : ℚ) from by ring]; norm_num
  have h2 : 10 < (t + 960 - t) / 60 := by
    rw [show t + 960 - t = (960 : ℚ) from by ring]; norm_num
  simp only [trueVisits, visitGo, if_neg h1, if_pos h2]

/-- Claim C3: for any identity and any base time, three events at T, T+5min
and T+12min grouped with the 10-minute gap rule produce exactly 2 visits. -/
theorem c3_session_grouping (t : ℚ) : trueVisits [t, t + 300, t + 720] = 2 := by
  have h1 : ¬ 10 < (t + 300 - t) / 60 := by
    rw [show t + 300 - t = (300 : ℚ) from by ring]; norm_num
  have h2 : 10 < (t + 720 - t) / 60 := by
    rw [show t + 720 - t = (720 : ℚ) from by ring]; norm_num
  simp only [trueVisits, visitGo, if_neg h1, if_pos h2]

theorem scanWeight_eq_donor (profiles : List Profile) (b : ℚ) :
    ∀ (tail : List PRow) (fuel : Nat),
      scanWeight profiles b fuel tail =
        (((tail.take fuel).takeWhile
            (fun r => decide ((r.dt - b) / 60 ≤ 7))).find?
          (fun r => strContains (lowerStr r.activity) "weight recorded" &&
            decide ((1 / 2 : ℚ) < r.weight))).map
          (fun r => ((classify_row r.activity r.weight profiles).1,
            "Matched w/ " ++ decRepr r.weight ++ "lbs (+" ++
              toString (truncQ ((r.dt - b) / 60)) ++ "m)")) := by
  intro tail
  induction tail with
  | nil => intro fuel; cases fuel <;> simp [scanWeight]
  | cons r rest ih =>
    intro fuel
    cases fuel with
    | zero => simp [scanWeight]
    | succ k =>
      simp only [scanWeight, List.take_succ_cons, List.takeWhile_cons]
      by_cases h7 : 7 < (r.dt - b) / 60
      · have hn : ¬ (r.dt - b) / 60 ≤ 7 := not_le.mpr h7
        rw [if_pos h7]
        simp [hn]
      · have hle : (r.dt - b) / 60 ≤ 7 := not_lt.mp h7
        rw [if_neg h7]
        simp only [hle, decide_True, if_true, List.find?_cons]
        by_cases hc : (strContains (lowerStr r.activity) "weight recorded" &&
            decide ((1 / 2 : ℚ) < r.weight)) = true
        · rw [if_pos hc]
          simp only [hc, Option.map_some']
        · rw [if_neg hc]
          simp only [Bool.not_eq_true] at hc
          simp only [hc]
          exact ih k

theorem scanWeight19 (profiles : List Profile) (b : ℚ) (tail : List PRow) :
    scanWeight profiles b 19 tail =
      (donorSearch b tail).map
        (fun r => ((classify_row r.activity r.weight profiles).1,
          "Matched w/ " ++ decRepr r.weight ++ "lbs (+" ++
            toString (truncQ ((r.dt - b) / 60)) ++ "m)")) := by
  rw [scanWeight_eq_donor]
  rfl

/-- Counterexample to claim C1 as stated: the look-ahead requires a weight
strictly above 0.5, so a weight-recorded row at exactly 0.5 one minute after
the motion row is not adopted, although the claim (weight at least 0.5)
predicts identity `Luna` borrowed from it. -/
theorem c1_counterexample :
    correlate [⟨"Luna", 1⟩] ⟨0, "Cat Detected", 0⟩
      [⟨60, "Weight Recorded", 1 / 2⟩] = ("Unknown", "No weight found in 7m") ∧
    correlate [⟨"Luna", 1⟩] ⟨0, "Cat Detected", 0⟩
      [⟨60, "Weight Recorded", 1 / 2⟩] ≠ ("Luna", "Matched w/ 0.5lbs (+1m)") := by
  with_unfolding_all decide

/-- Claim C1 (amended): for a motion row, the correlator examines at most
19 subsequent rows of the batch, truncated at the first row whose elapsed
time exceeds 7 minutes; the first examined row whose activity contains
"weight recorded" with weight strictly above 0.5 donates its classifier
identity, the reason recording the borrowed weight and whole elapsed minutes
unless the donated identity is `Unknown`, in which case (as when no donor
exists and the motion row itself classified to `Unknown`) the reason is
"No weight found in 7m"; with no donor the identity stays the classifier's
output for the motion row. The concrete conjuncts pin the boundaries: a
donor at exactly 7 minutes is used, one at 7 minutes 1 second is not, the
19th subsequent row can donate, and the 20th is never examined. -/
theorem c1_correlator_amended :
    (∀ (profiles : List Profile) (row : PRow) (tail : List PRow),
      strContains (lowerStr row.activity) "cat detected" = true →
      correlate profiles row tail =
        match donorSearch row.dt tail with
        | some d =>
          if (classify_row d.activity d.weight profiles).1 = "Unknown" then
            ("Unknown", "No weight found in 7m")
          else ((classify_row d.activity d.weight profiles).1,
            "Matched w/ " ++ decRepr d.weight ++ "lbs (+" ++
              toString (truncQ ((d.dt - row.dt) / 60)) ++ "m)")
        | none =>
          if (classify_row row.activity row.weight profiles).1 = "Unknown" then
            ("Unknown", "No weight found in 7m")
          else classify_row row.activity row.weight profiles) ∧
    (correlate [⟨"Luna", 10⟩] ⟨0, "Cat Detected", 0⟩
      [⟨420, "Weight Recorded", 10⟩] = ("Luna", "Matched w/ 10.0lbs (+7m)")) ∧
    (correlate [⟨"Luna", 10⟩] ⟨0, "Cat Detected", 0⟩
      [⟨421, "Weight Recorded", 10⟩] = ("Unknown", "No weight found in 7m")) ∧
    (correlate [⟨"Luna", 10⟩] ⟨0, "Cat Detected", 0⟩
      ((List.range 18).map (fun k => ⟨(k : ℚ) + 1, "Filler", 0⟩) ++
        [⟨20, "Weight Recorded", 10⟩]) = ("Luna", "Matched w/ 10.0lbs (+0m)")) ∧
    (correlate [⟨"Luna", 10⟩] ⟨0, "Cat Detected", 0⟩
      ((List.range 19).map (fun k => ⟨(k : ℚ) + 1, "Filler", 0⟩) ++
        [⟨21, "Weight Recorded", 10⟩]) = ("Unknown", "No weight found in 7m")) := by
  refine ⟨?_, by with_unfolding_all decide, by with_unfolding_all decide,
    by with_unfolding_all decide, by with_unfolding_all decide⟩
  intro profiles row tail h
  simp only [correlate, h, if_true, scanWeight19]
  cases hd : donorSearch row.dt tail with
  | none =>
    simp only [Option.map_none']
    by_cases hcr : (classify_row row.activity row.weight profiles).1 = "Unknown"
    · simp [hcr]
    · simp [hcr]
  | some d =>
    simp only [Option.map_some']
    by_cases hcr : (classify_row d.activity d.weight profiles).1 = "Unknown"
    · simp [hcr]
    · simp [hcr]

/-- Witness for C1 (amended) at a concrete input: a motion row with no
subsequent rows stays `Unknown` with reason "No weight found in 7m". -/
theorem c1_correlator_amended_witness :
    correlate [] ⟨0, "cat detected", 0⟩ [] = ("Unknown", "No weight found in 7m") := by
  have h := c1_correlator_amended.1 [] ⟨0, "cat detected", 0⟩ []
    (by with_unfolding_all decide)
  rw [h]
  with_unfolding_all decide

/-- Counterexample to claim C4 as stated: one start marker followed by two
end markers yields two counted cycles — the single start is paired again by
the second end even though it was already matched, contradicting pairing
with the most recent *unmatched* start (which would count at most one). -/
theorem c4_counterexample :
    machineHealth [⟨0, "Clean Cycle In Progress", "System"⟩,
      ⟨90, "Clean Cycle Complete", "System"⟩,
      ⟨150, "Clean Cycle Complete", "System"⟩] = [(0, 3 / 2), (0, 5 / 2)] ∧
    (machineHealth [⟨0, "Clean Cycle In Progress", "System"⟩,
      ⟨90, "Clean Cycle Complete", "System"⟩,
      ⟨150, "Clean Cycle Complete", "System"⟩]).length ≠ 1 := by
  with_unfolding_all decide

/-- Claim C4 (amended): a point is emitted exactly for the end markers whose
paired start — the most recent start strictly before the end, whether or not
an earlier end already used it — gives a duration strictly between 60 and
300 seconds with no "Cycle interrupted" event strictly in between; a 90
second pair with no interruption counts, and with an interruption between
the pair it is excluded. -/
theorem c4_cycle_pairing_amended :
    (∀ (df : List LogRow) (q : ℚ × ℚ),
      q ∈ machineHealth df ↔
        ∃ er, er ∈ cycleEnds df ∧ ∃ sr, pairedStart df er = some sr ∧
          interruptedBetween df sr.dt er.dt = false ∧
          60 < er.dt - sr.dt ∧ er.dt - sr.dt < 300 ∧
          q = (sr.dt, round2 ((er.dt - sr.dt) / 60))) ∧
    (machineHealth [⟨0, "Clean Cycle In Progress", "System"⟩,
      ⟨90, "Clean Cycle Complete", "System"⟩] = [(0, 3 / 2)]) ∧
    (machineHealth [⟨0, "Clean Cycle In Progress", "System"⟩,
      ⟨45, "Cycle interrupted", "System"⟩,
      ⟨90, "Clean Cycle Complete", "System"⟩] = []) := by
  refine ⟨?_, by with_unfolding_all decide, by with_unfolding_all decide⟩
  intro df q
  rw [machineHealth, List.mem_filterMap]
  constructor
  · rintro ⟨er, her, hf⟩
    refine ⟨er, her, ?_⟩
    cases hps : pairedStart df er with
    | none => rw [hps] at hf; simp at hf
    | some sr =>
      rw [hps] at hf
      simp only at hf
      by_cases hcond : (!interruptedBetween df sr.dt er.dt &&
          decide (60 < er.dt - sr.dt) && decide (er.dt - sr.dt < 300)) = true
      · rw [if_pos hcond] at hf
        simp only [Option.some.injEq] at hf
        simp only [Bool.and_eq_true, Bool.not_eq_true', decide_eq_true_eq]
          at hcond
        exact ⟨sr, rfl, hcond.1.1, hcond.1.2, hcond.2, hf.symm⟩
      · rw [if_neg hcond] at hf
        simp at hf
  · rintro ⟨er, her, sr, hps, hint, h60, h300, hq⟩
    refine ⟨er, her, ?_⟩
    rw [hps]
    simp only
    have hcond : (!interruptedBetween df sr.dt er.dt &&
        decide (60 < er.dt - sr.dt) && decide (er.dt - sr.dt < 300)) = true := by
      simp [hint, h60, h300]
    rw [if_pos hcond, hq]

/-- Counterexample to claim C5 as stated: Ami's motion at t = -600 is inside
the lookback window for the cycle start at t = 900 (virtual exit t = 0) and
would give a 10-minute dwell estimate, but a more recent motion of Bea at
t = -300 is also inside the window, so the code — which takes the most
recent motion of *any* identity and only then filters on identity — emits no
estimate at all for Ami. -/
theorem c5_counterexample :
    dwellPoints [⟨-600, "Cat Detected", "Ami"⟩, ⟨-300, "Cat Detected", "Bea"⟩,
      ⟨900, "Clean Cycle In Progress", "System"⟩] "Ami" = [] ∧
    dwellPoints [⟨-600, "Cat Detected", "Ami"⟩, ⟨-300, "Cat Detected", "Bea"⟩,
      ⟨900, "Clean Cycle In Progress", "System"⟩] "Ami" ≠ [(900, 10)] := by
  with_unfolding_all decide

/-- Claim C5 (amended): for each cycle start, the dwell estimate for an
identity is emitted exactly when the positionally last motion-detection
event in the 30-minute lookback window ending at the virtual exit — taken
over all identities, not just the one under evaluation — carries that
identity and its gap to the virtual exit is strictly between 0 and 30
minutes; in windows where a more recent motion of a different identity is
present, no estimate is emitted for the identity. -/
theorem c5_dwell_amended :
    (∀ (df : List LogRow) (cat : String) (q : ℚ × ℚ),
      q ∈ dwellPoints df cat ↔
        ∃ sr, sr ∈ cycleStarts df ∧ ∃ lc,
          (dwellCandidates df sr.dt).getLast? = some lc ∧
          lc.cat_identity = cat ∧
          0 < (sr.dt - 900 - lc.dt) / 60 ∧ (sr.dt - 900 - lc.dt) / 60 < 30 ∧
          q = (sr.dt, round1 ((sr.dt - 900 - lc.dt) / 60))) ∧
    (dwellPoints [⟨-600, "Cat Detected", "Ami"⟩, ⟨-300, "Cat Detected", "Bea"⟩,
      ⟨900, "Clean Cycle In Progress", "System"⟩] "Bea" = [(900, 5)]) := by
  refine ⟨?_, by with_unfolding_all decide⟩
  intro df cat q
  rw [dwellPoints, List.mem_filterMap]
  constructor
  · rintro ⟨sr, hsr, hf⟩
    refine ⟨sr, hsr, ?_⟩
    cases hlast : (dwellCandidates df sr.dt).getLast? with
    | none => rw [hlast] at hf; simp at hf
    | some lc =>
      rw [hlast] at hf
      simp only at hf
      by_cases hid : (lc.cat_identity == cat) = true
      · rw [if_pos hid] at hf
        by_cases hcond : (decide (0 < (sr.dt - 900 - lc.dt) / 60) &&
            decide ((sr.dt - 900 - lc.dt) / 60 < 30)) = true
        · rw [if_pos hcond] at hf
          simp only [Option.some.injEq] at hf
          simp only [Bool.and_eq_true, decide_eq_true_eq] at hcond
          exact ⟨lc, rfl, beq_iff_eq.mp hid, hcond.1, hcond.2, hf.symm⟩
        · rw [if_neg hcond] at hf
          simp at hf
      · rw [if_neg hid] at hf
        simp at hf
  · rintro ⟨sr, hsr, lc, hlast, hid, h0, h30, hq⟩
    refine ⟨sr, hsr, ?_⟩
    rw [hlast]
    simp only
    rw [if_pos (beq_iff_eq.mpr hid)]
    have hcond : (decide (0 < (sr.dt - 900 - lc.dt) / 60) &&
        decide ((sr.dt - 900 - lc.dt) / 60 < 30)) = true := by
      simp [h0, h30]
    rw [if_pos hcond, hq]

theorem insertRow_cases (db : List StoredEv) (e : StoredEv) :
    insertRow db e = (db, false) ∨ insertRow db e = (db ++ [e], true) := by
  unfold insertRow
  by_cases h : (db.any fun r => decide (r.timestamp = e.timestamp)) = true
  · left; rw [if_pos h]
  · right; rw [if_neg h]

theorem insertRow_key (db : List StoredEv) (e : StoredEv) :
    ∃ x ∈ (insertRow db e).1, x.timestamp = e.timestamp := by
  unfold insertRow
  by_cases h : (db.any fun r => decide (r.timestamp = e.timestamp)) = true
  · rw [if_pos h]
    obtain ⟨x, hx, hxd⟩ := List.any_eq_true.mp h
    exact ⟨x, hx, of_decide_eq_true hxd⟩
  · rw [if_neg h]
    exact ⟨e, by simp, rfl⟩

theorem insertRow_dup (db : List StoredEv) (e : StoredEv)
    (h : ∃ x ∈ db, x.timestamp = e.timestamp) : insertRow db e = (db, false) := by
  obtain ⟨x, hx, hxe⟩ := h
  unfold insertRow
  rw [if_pos (List.any_eq_true.mpr ⟨x, hx, decide_eq_true hxe⟩)]

theorem ingestLoop_mono (profiles : List Profile) :
    ∀ (rows : List PRow) (db : List StoredEv) (a : Nat) (e : StoredEv),
      e ∈ db → e ∈ (ingestLoop profiles db a rows).1 := by
  intro rows
  induction rows with
  | nil => intro db a e he; exact he
  | cons r rest ih =>
    intro db a e he
    rcases insertRow_cases db
      ⟨r.dt, r.weight, r.activity, (correlate profiles r rest).1,
        (correlate profiles r rest).2⟩ with h | h <;>
      simp only [ingestLoop, h, eq_self_iff_true, Bool.false_eq_true, if_true,
        if_false]
    · exact ih db a e he
    · exact ih _ _ e (List.mem_append_left _ he)

theorem ingestLoop_key (profiles : List Profile) :
    ∀ (rows : List PRow) (db : List StoredEv) (a : Nat) (r : PRow),
      r ∈ rows → ∃ x ∈ (ingestLoop profiles db a rows).1, x.timestamp = r.dt := by
  intro rows
  induction rows with
  | nil => intro db a r hr; simp at hr
  | cons r0 rest ih =>
    intro db a r hr
    rcases List.mem_cons.mp hr with rfl | hmem
    · obtain ⟨x, hx, hxd⟩ := insertRow_key db
        ⟨r.dt, r.weight, r.activity, (correlate profiles r rest).1,
          (correlate profiles r rest).2⟩
      rcases insertRow_cases db
        ⟨r.dt, r.weight, r.activity, (correlate profiles r rest).1,
          (correlate profiles r rest).2⟩ with h | h <;>
        rw [h] at hx <;>
        simp only [ingestLoop, h, eq_self_iff_true, Bool.false_eq_true, if_true,
          if_false] <;>
        exact ⟨x, ingestLoop_mono profiles rest _ _ x hx, hxd⟩
    · rcases insertRow_cases db
        ⟨r0.dt, r0.weight, r0.activity, (correlate profiles r0 rest).1,
          (correlate profiles r0 rest).2⟩ with h | h <;>
        simp only [ingestLoop, h, eq_self_iff_true, Bool.false_eq_true, if_true,
          if_false] <;>
        exact ih _ _ r hmem

theorem ingestLoop_noop (profiles : List Profile) :
    ∀ (rows : List PRow) (db : List StoredEv) (a : Nat),
      (∀ r ∈ rows, ∃ x ∈ db, x.timestamp = r.dt) →
      ingestLoop profiles db a rows = (db, a) := by
  intro rows
  induction rows with
  | nil => intro db a _; rfl
  | cons r rest ih =>
    intro db a h
    have hdup := insertRow_dup db
      ⟨r.dt, r.weight, r.activity, (correlate profiles r rest).1,
        (correlate profiles r rest).2⟩ (h r (by simp))
    simp only [ingestLoop, hdup, Bool.false_eq_true, if_false]
    exact ih db a (fun q hq => h q (by simp [hq]))

/-- Claim C8: re-ingesting the same parsed batch leaves the events table
exactly as after the first ingestion and adds 0 rows, because inserting an
event whose timestamp key already exists is a silently ignored no-op that
leaves the table unchanged and does not bump the added count. -/
theorem c8_idempotent_ingest :
    (∀ (profiles : List Profile) (db : List StoredEv) (rows : List PRow),
      ingest profiles (ingest profiles db rows).1 rows =
        ((ingest profiles db rows).1, 0)) ∧
    (∀ (db : List StoredEv) (e : StoredEv),
      (∃ x ∈ db, x.timestamp = e.timestamp) → insertRow db e = (db, false)) := by
  constructor
  · intro profiles db rows
    unfold ingest
    exact ingestLoop_noop profiles rows _ 0
      (fun r hr => ingestLoop_key profiles rows db 0 r hr)
  · exact insertRow_dup

/-- Witness for C8 at a concrete input: inserting a row whose timestamp 1 is
already present is a no-op. -/
theorem c8_idempotent_ingest_witness :
    insertRow [⟨1, 2, "a", "b", "c"⟩] ⟨1, 3, "d", "e", "f"⟩ =
      ([⟨1, 2, "a", "b", "c"⟩], false) :=
  c8_idempotent_ingest.2 [⟨1, 2, "a", "b", "c"⟩] ⟨1, 3, "d", "e", "f"⟩
    ⟨⟨1, 2, "a", "b", "c"⟩, by simp, rfl⟩

theorem ingestLoop_src (profiles : List Profile) :
    ∀ (rows : List PRow) (db : List StoredEv) (a : Nat) (e : StoredEv),
      e ∈ (ingestLoop profiles db a rows).1 →
      e ∈ db ∨ ∃ r ∈ rows, e.timestamp = r.dt ∧ e.weight = r.weight := by
  intro rows
  induction rows with
  | nil => intro db a e he; exact Or.inl he
  | cons r rest ih =>
    intro db a e he
    rcases insertRow_cases db
      ⟨r.dt, r.weight, r.activity, (correlate profiles r rest).1,
        (correlate profiles r rest).2⟩ with h | h <;>
      simp only [ingestLoop, h, eq_self_iff_true, Bool.false_eq_true, if_true,
        if_false] at he
    · rcases ih db _ e he with hdb | ⟨q, hq, hk⟩
      · exact Or.inl hdb
      · exact Or.inr ⟨q, by simp [hq], hk⟩
    · rcases ih _ _ e he with hdb | ⟨q, hq, hk⟩
      · rcases List.mem_append.mp hdb with hdb2 | hnew
        · exact Or.inl hdb2
        · rcases List.mem_singleton.mp hnew with rfl
          exact Or.inr ⟨r, by simp, rfl, rfl⟩
      · exact Or.inr ⟨q, by simp [hq], hk⟩

/-- Claim C9: a parsed row whose (timestamp, weight) pair matches a stored
blacklist entry never reaches the parsed batch, so every event newly created
by an upload has a non-blacklisted (timestamp, weight) key; and restoring a
blacklisted timestamp (when the timestamp is not an active event) appends an
event with identity `Unknown` and reason `Restored from Blacklist` built
from the blacklist entry, removes the blacklist rows with that timestamp,
and reports success. -/
theorem c9_blacklist_suppression :
    (∀ (profiles : List Profile) (bl : List BLEntry) (db : List StoredEv)
        (rows : List PRow) (e : StoredEv),
      e ∈ (ingest profiles db (filterBlacklist bl rows)).1 → e ∉ db →
      blKey bl e.timestamp e.weight = false) ∧
    (∀ (bl : List BLEntry) (db : List StoredEv) (ts : ℚ) (b : BLEntry),
      bl.find? (fun x => decide (x.timestamp = ts)) = some b →
      (db.any fun x => decide (x.timestamp = ts)) = false →
      restore_from_blacklist bl db ts =
        ((bl.filter (fun x => !(decide (x.timestamp = ts))),
          db ++ [⟨ts, b.weight, b.reason, "Unknown", "Restored from Blacklist"⟩]),
          true)) := by
  constructor
  · intro profiles bl db rows e he hnew
    rcases ingestLoop_src profiles (filterBlacklist bl rows) db 0 e he with
      hdb | ⟨r, hr, hts, hwt⟩
    · exact absurd hdb hnew
    · have hpass := List.of_mem_filter hr
      simp only [Bool.not_eq_true'] at hpass
      rw [hts, hwt]
      exact hpass
  · intro bl db ts b hfind hact
    unfold restore_from_blacklist
    rw [hfind, hact]
    simp

/-- Witness for C9 at a concrete input: restoring blacklist entry
(5, 3, "Cat Detected") into an empty events table. -/
theorem c9_blacklist_suppression_witness :
    restore_from_blacklist [⟨5, 3, "Cat Detected"⟩] [] 5 =
      (([], [⟨5, 3, "Cat Detected", "Unknown", "Restored from Blacklist"⟩]),
        true) := by
  have h := c9_blacklist_suppression.2 [⟨5, 3, "Cat Detected"⟩] [] 5
    ⟨5, 3, "Cat Detected"⟩ (by with_unfolding_all decide) rfl
  rw [h]
  with_unfolding_all decide
